import Mathlib

/-!
Shallow embedding of `src/NanoVNASaver/Hardware/NanoVNA.py` (the `NanoVNA`
driver class) and proofs about its behaviour.

Python integers are modelled as `ℤ`/`ℕ`; the float arithmetic in
`readFrequencies` is modelled with exact rationals `ℚ` and Python's
round-half-to-even; Python exceptions are modelled with an explicit
`PyExn` error type and `Except`; the mutable `_sweepdata` cache and the
serial timeout are passed as explicit state.
-/

namespace NanoVNA

/-- Python exceptions that the modelled code paths can raise. -/
inductive PyExn where
  | zeroDivisionError
  | indexError
  | serialException
  | structError
deriving DecidableEq, Repr

/-- Python's built-in `round` on an exact rational: round half to even
(banker's rounding), returning an integer. -/
def pyRound (q : ℚ) : ℤ :=
  let f : ℤ := ⌊q⌋
  let r : ℚ := q - f
  if r < 1/2 then f
  else if 1/2 < r then f + 1
  else if f % 2 = 0 then f else f + 1

/-- The `sweep_method` string set by `read_features` for firmware ≥ 0.7.1. -/
def scanMaskMethod : String := "scan_mask"

/-- The `sweep_method` string set by `read_features` for firmware ≥ 0.2.0. -/
def scanMethod : String := "scan"

/-- The `sweep_method` string set in `__init__` and kept for old firmware. -/
def sweepMethodName : String := "sweep"

/-- The channel-0 selector string accepted by `readValues`. -/
def dataCh0 : String := "data 0"

/-- The channel-1 selector string accepted by `readValues`. -/
def dataCh1 : String := "data 1"

/-- Modelled from the spec: the `Version` value type of
`NanoVNASaver.Hardware.VNA` is not part of the source slice; per the spec
it is an ordered triple (major, minor, patch) with a total ordering. -/
structure Version where
  major : ℕ
  minor : ℕ
  patch : ℕ
deriving DecidableEq, Repr

/-- Modelled from the spec: lexicographic strict order on version triples. -/
def Version.lt (a b : Version) : Bool :=
  if a.major ≠ b.major then decide (a.major < b.major)
  else if a.minor ≠ b.minor then decide (a.minor < b.minor)
  else decide (a.patch < b.patch)

/-- Modelled from the spec: `a ≥ b` on version triples (negation of `lt`,
valid because the lexicographic order is total). -/
def Version.ge (a b : Version) : Bool :=
  !(Version.lt a b)

/-- `NanoVNA.read_features` (NanoVNA.py lines 99-107): selects the
`sweep_method` string from the firmware version with descending threshold
checks; when neither threshold is met `sweep_method` keeps the value
`"sweep"` assigned in `__init__`. -/
def read_features (v : Version) : String :=
  if Version.ge v ⟨0, 7, 1⟩ then scanMaskMethod
  else if Version.ge v ⟨0, 2, 0⟩ then scanMethod
  else sweepMethodName

/-- `NanoVNA.readFrequencies` (NanoVNA.py lines 109-113). For any method
other than `"scan_mask"` the call delegates to the base class, which is
outside the source slice: modelled as `none`. Under `"scan_mask"`:
`step = (stop - start) / (datapoints - 1.0)` — Python raises
`ZeroDivisionError` when `datapoints = 1` — and the result is
`[round(start + i * step) for i in range(datapoints)]`. -/
def readFrequencies (method : String) (start stop datapoints : ℤ) :
    Option (Except PyExn (List ℤ)) :=
  if method ≠ scanMaskMethod then none
  else if datapoints = 1 then some (Except.error PyExn.zeroDivisionError)
  else
    let step : ℚ := ((stop : ℚ) - (start : ℚ)) / ((datapoints : ℚ) - 1)
    some (Except.ok ((List.range datapoints.toNat).map
      (fun (i : ℕ) => pyRound ((start : ℚ) + (i : ℚ) * step))))

/-- Screen width in pixels (`NanoVNA.screenwidth`). -/
def screenwidth : ℕ := 320

/-- Screen height in pixels (`NanoVNA.screenheight`). -/
def screenheight : ℕ := 240

/-- The RGB565 → ARGB32 pixel expansion of `_capture_data`
(NanoVNA.py lines 64-67), on `numpy.uint32` arithmetic (mod 2^32). -/
def rgb565ToARGB (px : ℕ) : ℕ :=
  (0xFF000000 + ((px &&& 0xF800) <<< 8) + ((px &&& 0x07E0) <<< 5) +
    ((px &&& 0x001F) <<< 3)) % 2 ^ 32

/-- `struct.unpack(">...H", bytes)`: interpret a byte list as big-endian
unsigned 16-bit values; an odd trailing byte is never produced because the
caller checks the exact length. -/
def unpackBE16 : List ℕ → List ℕ
  | b1 :: b2 :: rest => ((b1 * 256 + b2) % 65536) :: unpackBE16 rest
  | _ => []

/-- Modelled from the spec: the outcome of the Interface collaborator's
`read(n)` during a capture — either it raises a serial exception, or it
returns up to `n` bytes (a short list when the read times out, per §5 of
the spec: "the read returns short/empty"). -/
inductive ReadOutcome where
  | data (bytes : List ℕ)
  | serialExn
deriving Repr

/-- `NanoVNA._capture_data` (NanoVNA.py lines 48-67), with the serial
timeout passed as explicit state. `t0` is the timeout on entry; the second
component of the result is the serial timeout after the call returns or
raises. The code sets the timeout to 4 before the bulk read and restores
it afterwards with plain assignments (no try/finally), so when the read
raises, the assignment restoring `t0` never runs. On a short read,
`struct.unpack` raises `struct.error` (wrong byte count) — after the
timeout has been restored. -/
def captureData (t0 : ℕ) (outcome : ReadOutcome) :
    Except PyExn (List ℕ) × ℕ :=
  match outcome with
  | ReadOutcome.serialExn => (Except.error PyExn.serialException, 4)
  | ReadOutcome.data bytes =>
    if bytes.length = screenwidth * screenheight * 2 then
      (Except.ok ((unpackBE16 bytes).map rgb565ToARGB), t0)
    else
      (Except.error PyExn.structError, t0)

/-- The empty `QtGui.QPixmap()` returned on the degraded paths, modelled
as an empty pixel list. -/
def blankPixmap : List ℕ := []

/-- `NanoVNA.getScreenshot` (NanoVNA.py lines 69-85): returns a blank
pixmap when not connected; otherwise runs `_capture_data` and wraps the
pixels, catching only `serial.SerialException` (logged, blank pixmap);
any other exception propagates. -/
def getScreenshot (connected : Bool) (t0 : ℕ) (outcome : ReadOutcome) :
    Except PyExn (List ℕ) × ℕ :=
  if !connected then (Except.ok blankPixmap, t0)
  else
    match captureData t0 outcome with
    | (Except.ok pixels, t) => (Except.ok pixels, t)
    | (Except.error PyExn.serialException, t) => (Except.ok blankPixmap, t)
    | (Except.error e, t) => (Except.error e, t)

/-- Helper for `pysplit`: walk the characters, accumulating the current
token in reverse. -/
def tokenize : List Char → List Char → List String
  | [], cur => if cur.isEmpty then [] else [String.mk cur.reverse]
  | c :: rest, cur =>
    if c.isWhitespace then
      if cur.isEmpty then tokenize rest []
      else String.mk cur.reverse :: tokenize rest []
    else tokenize rest (c :: cur)

/-- Python's `str.split()` with no argument: split on runs of whitespace,
discarding empty tokens. -/
def pysplit (s : String) : List String :=
  tokenize s.data []

/-- One iteration of the `"data 0"` loop body of `readValues`
(NanoVNA.py lines 125-128): split the line and build the pair
`(f"{data[0]} {data[1]}", f"{data[2]} {data[3]}")`; `none` models the
`IndexError` raised when the line has fewer than four tokens (extra
tokens beyond the fourth are ignored, exactly as in the source). -/
def parseLine (line : String) : Option (String × String) :=
  match pysplit line with
  | t0 :: t1 :: t2 :: t3 :: _ => some (t0 ++ " " ++ t1, t2 ++ " " ++ t3)
  | _ => none

/-- Whether a response line parses without an `IndexError`. -/
def lineOk (line : String) : Bool :=
  (parseLine line).isSome

/-- The `"data 0"` loop of `readValues`: process the response lines in
order, appending each parsed pair to the accumulator; stop at the first
line that raises. The `Bool` records whether an `IndexError` was raised. -/
def data0Loop : List String → List (String × String) →
    List (String × String) × Bool
  | [], acc => (acc, false)
  | line :: rest, acc =>
    match parseLine line with
    | some p => data0Loop rest (acc ++ [p])
    | none => (acc, true)

/-- `NanoVNA.readValues` (NanoVNA.py lines 115-132). For any method other
than `"scan_mask"` the call delegates to the base class (outside the
source slice): modelled as `none`. Under `"scan_mask"`, the result records
the Python return value (`Option (List String)`, `none` for Python's
implicit `None`) or the raised exception, the `_sweepdata` cache after
the call, and whether a device command was issued. `lines` are the
response lines of the `scan ... 0b110` command, consumed only on
`"data 0"`. Note the source clears `_sweepdata` before the loop, so on
an `IndexError` the cache holds the pairs parsed so far. -/
def readValues (method : String) (value : String) (lines : List String)
    (sweepdata : List (String × String)) :
    Option (Except PyExn (Option (List String)) ×
      List (String × String) × Bool) :=
  if method ≠ scanMaskMethod then none
  else some
    (if value = dataCh0 then
      let r := data0Loop lines []
      if r.2 then (Except.error PyExn.indexError, r.1, true)
      else (Except.ok (some (r.1.map Prod.fst)), r.1, true)
    else if value = dataCh1 then
      (Except.ok (some (sweepdata.map Prod.snd)), sweepdata, false)
    else (Except.ok none, sweepdata, false))

/-! ## Helper instances and lemmas -/

instance {ε α : Type} [DecidableEq ε] [DecidableEq α] :
    DecidableEq (Except ε α) := fun x y =>
  match x, y with
  | Except.ok a, Except.ok b =>
    if h : a = b then Decidable.isTrue (by rw [h])
    else Decidable.isFalse (by simp [h])
  | Except.error a, Except.error b =>
    if h : a = b then Decidable.isTrue (by rw [h])
    else Decidable.isFalse (by simp [h])
  | Except.ok _, Except.error _ => Decidable.isFalse (by simp)
  | Except.error _, Except.ok _ => Decidable.isFalse (by simp)

/-- Decoding a byte list as big-endian 16-bit words halves its length. -/
theorem unpackBE16_length (l : List ℕ) :
    (unpackBE16 l).length = l.length / 2 := by
  induction l using unpackBE16.induct with
  | case1 b1 b2 rest ih => simp [unpackBE16, ih]; omega
  | case2 l h => cases l with
    | nil => simp [unpackBE16]
    | cons a t => cases t with
      | nil => simp [unpackBE16]
      | cons b r => exact absurd rfl (h a b r)

/-- The boolean `Version.lt` agrees with the lexicographic order on the
triples. -/
theorem Version.lt_iff (a b : Version) :
    Version.lt a b = true ↔
      (a.major < b.major ∨ (a.major = b.major ∧
        (a.minor < b.minor ∨ (a.minor = b.minor ∧ a.patch < b.patch)))) := by
  unfold Version.lt
  split_ifs <;> simp_all

/-- A response line fails to parse exactly when it has fewer than four
whitespace-separated tokens. -/
theorem parseLine_eq_none_iff (l : String) :
    parseLine l = none ↔ (pysplit l).length < 4 := by
  unfold parseLine
  rcases h : pysplit l with _ | ⟨t0, _ | ⟨t1, _ | ⟨t2, _ | ⟨t3, rest⟩⟩⟩⟩ <;> simp

/-- When every line parses, the `"data 0"` loop appends all pairs and
raises nothing. -/
theorem data0Loop_ok (lines : List String) :
    ∀ acc : List (String × String), (∀ l ∈ lines, (parseLine l).isSome) →
    data0Loop lines acc = (acc ++ lines.filterMap parseLine, false) := by
  induction lines with
  | nil => intro acc _; simp [data0Loop]
  | cons line rest ih =>
    intro acc h
    obtain ⟨p, hp⟩ := Option.isSome_iff_exists.mp (h line (by simp))
    rw [data0Loop, hp]
    show data0Loop rest (acc ++ [p]) = _
    rw [ih (acc ++ [p]) (fun l hl => h l (by simp [hl]))]
    simp [List.filterMap_cons, hp]

/-- When some line fails to parse, the `"data 0"` loop stops at the first
such line, having appended the pairs of the preceding lines, and raises. -/
theorem data0Loop_bad (lines : List String) :
    ∀ acc : List (String × String), (∃ l ∈ lines, parseLine l = none) →
    data0Loop lines acc =
      (acc ++ (lines.takeWhile lineOk).filterMap parseLine, true) := by
  induction lines with
  | nil => intro acc h; simp at h
  | cons line rest ih =>
    intro acc h
    cases hp : parseLine line with
    | none =>
      rw [data0Loop, hp]
      have : lineOk line = false := by simp [lineOk, hp]
      simp [List.takeWhile_cons, this]
    | some p =>
      have hr : ∃ l ∈ rest, parseLine l = none := by
        obtain ⟨l, hl, hn⟩ := h
        rcases List.mem_cons.mp hl with rfl | hl2
        · exact absurd hn (by simp [hp])
        · exact ⟨l, hl2, hn⟩
      rw [data0Loop, hp]
      show data0Loop rest (acc ++ [p]) = _
      rw [ih (acc ++ [p]) hr]
      have : lineOk line = true := by simp [lineOk, hp]
      simp [List.takeWhile_cons, this, List.filterMap_cons, hp]

/-- Python's round is the identity on integers. -/
theorem pyRound_intCast (z : ℤ) : pyRound ((z : ℤ) : ℚ) = z := by
  unfold pyRound
  norm_num

/-! ## Claim theorems -/

/-- C1: under ScanMask mode, `readFrequencies` returns the locally
computed linear progression: with step = (stop − start) / (datapoints − 1),
the i-th element is round(start + i·step) for every i < datapoints; in
particular for start=1000, stop=2000, datapoints=3 it returns
[1000, 1500, 2000]. -/
theorem readFrequencies_scanMask_linear (start stop datapoints : ℤ)
    (hdp : 2 ≤ datapoints) :
    ∃ freqs : List ℤ,
      readFrequencies scanMaskMethod start stop datapoints =
        some (Except.ok freqs) ∧
      freqs.length = datapoints.toNat ∧
      (∀ i : ℕ, ∀ _ : i < datapoints.toNat,
        freqs[i]? = some (pyRound ((start : ℚ) + (i : ℚ) *
          (((stop : ℚ) - (start : ℚ)) / ((datapoints : ℚ) - 1))))) ∧
      readFrequencies scanMaskMethod 1000 2000 3 =
        some (Except.ok [1000, 1500, 2000]) := by
  have h1 : datapoints ≠ 1 := by omega
  refine ⟨(List.range datapoints.toNat).map
      (fun (i : ℕ) => pyRound ((start : ℚ) + (i : ℚ) *
        (((stop : ℚ) - (start : ℚ)) / ((datapoints : ℚ) - 1)))),
    ?_, ?_, ?_, ?_⟩
  · simp [readFrequencies, h1]
  · rw [List.length_map, List.length_range]
  · intro i hi
    simp [List.getElem?_map, List.getElem?_range hi]
  · show readFrequencies scanMaskMethod 1000 2000 3 =
      some (Except.ok [1000, 1500, 2000])
    unfold readFrequencies
    have hr : List.range (Int.toNat 3) = [0, 1, 2] := rfl
    have e0 : ((1000 : ℤ) : ℚ) + ((0 : ℕ) : ℚ) *
        ((((2000 : ℤ) : ℚ) - ((1000 : ℤ) : ℚ)) / (((3 : ℤ) : ℚ) - 1)) =
        ((1000 : ℤ) : ℚ) := by push_cast; ring
    have e1 : ((1000 : ℤ) : ℚ) + ((1 : ℕ) : ℚ) *
        ((((2000 : ℤ) : ℚ) - ((1000 : ℤ) : ℚ)) / (((3 : ℤ) : ℚ) - 1)) =
        ((1500 : ℤ) : ℚ) := by push_cast; norm_num
    have e2 : ((1000 : ℤ) : ℚ) + ((2 : ℕ) : ℚ) *
        ((((2000 : ℤ) : ℚ) - ((1000 : ℤ) : ℚ)) / (((3 : ℤ) : ℚ) - 1)) =
        ((2000 : ℤ) : ℚ) := by push_cast; norm_num
    simp only [hr, List.map_cons, List.map_nil, e0, e1, e2, pyRound_intCast]
    norm_num

/-- Witness for C1 at start=1000, stop=2000, datapoints=3. -/
theorem readFrequencies_scanMask_linear_witness :
    readFrequencies scanMaskMethod 1000 2000 3 =
      some (Except.ok [1000, 1500, 2000]) :=
  (readFrequencies_scanMask_linear 1000 2000 3 (by decide)).choose_spec.2.2.2

/-- C2: the capture decode maps each 16-bit RGB565 pixel px to
0xFF000000 + ((px & 0xF800) << 8) + ((px & 0x07E0) << 5) +
((px & 0x001F) << 3) with no bit replication; a 320×240 capture consumes
exactly 153600 payload bytes giving 76800 big-endian 16-bit pixels; and
the vectors 0xF800, 0x07E0, 0x001F decode to 0xFFF80000, 0xFF00FC00,
0xFF0000F8. -/
theorem captureData_decode (px : ℕ) (_hpx : px < 65536) (t0 : ℕ)
    (bytes : List ℕ) (hlen : bytes.length = 153600) :
    rgb565ToARGB px = 0xFF000000 + ((px &&& 0xF800) <<< 8) +
      ((px &&& 0x07E0) <<< 5) + ((px &&& 0x001F) <<< 3) ∧
    screenwidth * screenheight * 2 = 153600 ∧
    (∃ pixels : List ℕ,
      (captureData t0 (ReadOutcome.data bytes)).1 = Except.ok pixels ∧
      pixels.length = 76800) ∧
    rgb565ToARGB 0xF800 = 0xFFF80000 ∧
    rgb565ToARGB 0x07E0 = 0xFF00FC00 ∧
    rgb565ToARGB 0x001F = 0xFF0000F8 := by
  refine ⟨?_, rfl, ⟨(unpackBE16 bytes).map rgb565ToARGB, ?_, ?_⟩,
    by decide, by decide, by decide⟩
  · have h1 : px &&& 0xF800 ≤ 0xF800 := Nat.and_le_right
    have h2 : px &&& 0x07E0 ≤ 0x07E0 := Nat.and_le_right
    have h3 : px &&& 0x001F ≤ 0x001F := Nat.and_le_right
    unfold rgb565ToARGB
    simp only [Nat.shiftLeft_eq]
    norm_num
    omega
  · simp [captureData, hlen, screenwidth, screenheight]
  · simp [unpackBE16_length, hlen]

/-- Witness for C2 at px = 0 and an all-zero 153600-byte payload. -/
theorem captureData_decode_witness :
    rgb565ToARGB 0 = 0xFF000000 + ((0 &&& 0xF800) <<< 8) +
      ((0 &&& 0x07E0) <<< 5) + ((0 &&& 0x001F) <<< 3) ∧
    screenwidth * screenheight * 2 = 153600 ∧
    (∃ pixels : List ℕ,
      (captureData 0 (ReadOutcome.data (List.replicate 153600 0))).1 =
        Except.ok pixels ∧ pixels.length = 76800) ∧
    rgb565ToARGB 0xF800 = 0xFFF80000 ∧
    rgb565ToARGB 0x07E0 = 0xFF00FC00 ∧
    rgb565ToARGB 0x001F = 0xFF0000F8 :=
  captureData_decode 0 (by decide) 0 (List.replicate 153600 0)
    (List.length_replicate 153600 0)

/-- C3: for every firmware version, feature negotiation selects exactly
one sweep method — scan_mask iff v ≥ 0.7.1, scan iff 0.2.0 ≤ v < 0.7.1,
and the legacy sweep iff v < 0.2.0 — with both thresholds inclusive lower
bounds of their ranges. -/
theorem read_features_thresholds (v : Version) :
    (read_features v = scanMaskMethod ↔ Version.ge v ⟨0, 7, 1⟩ = true) ∧
    (read_features v = scanMethod ↔
      (Version.ge v ⟨0, 2, 0⟩ = true ∧ Version.lt v ⟨0, 7, 1⟩ = true)) ∧
    (read_features v = sweepMethodName ↔ Version.lt v ⟨0, 2, 0⟩ = true) ∧
    (read_features v = scanMaskMethod ∨ read_features v = scanMethod ∨
      read_features v = sweepMethodName) ∧
    Version.ge ⟨0, 7, 1⟩ ⟨0, 7, 1⟩ = true ∧
    Version.ge ⟨0, 2, 0⟩ ⟨0, 2, 0⟩ = true := by
  obtain ⟨ma, mi, pa⟩ := v
  have l1 := Version.lt_iff ⟨ma, mi, pa⟩ ⟨0, 7, 1⟩
  have l2 := Version.lt_iff ⟨ma, mi, pa⟩ ⟨0, 2, 0⟩
  simp only at l1 l2
  have mono : Version.lt ⟨ma, mi, pa⟩ ⟨0, 2, 0⟩ = true →
      Version.lt ⟨ma, mi, pa⟩ ⟨0, 7, 1⟩ = true := by
    rw [l1, l2]; omega
  have s1 : scanMaskMethod ≠ scanMethod := by decide
  have s2 : scanMaskMethod ≠ sweepMethodName := by decide
  have s3 : scanMethod ≠ sweepMethodName := by decide
  cases h71 : Version.lt ⟨ma, mi, pa⟩ ⟨0, 7, 1⟩ with
  | false =>
    have h20 : Version.lt ⟨ma, mi, pa⟩ ⟨0, 2, 0⟩ = false := by
      cases h : Version.lt ⟨ma, mi, pa⟩ ⟨0, 2, 0⟩
      · rfl
      · rw [h] at mono; rw [mono rfl] at h71; exact absurd h71 (by simp)
    refine ⟨?_, ?_, ?_, ?_, by decide, by decide⟩ <;>
      simp [read_features, Version.ge, h71, h20, s1, s2]
  | true =>
    cases h20 : Version.lt ⟨ma, mi, pa⟩ ⟨0, 2, 0⟩ with
    | false =>
      refine ⟨?_, ?_, ?_, ?_, by decide, by decide⟩ <;>
        simp [read_features, Version.ge, h71, h20, Ne.symm s1, s3]
    | true =>
      refine ⟨?_, ?_, ?_, ?_, by decide, by decide⟩ <;>
        simp [read_features, Version.ge, h71, h20, Ne.symm s2, Ne.symm s3]

/-- Witness for C3 at the boundary version 0.7.1. -/
theorem read_features_thresholds_witness :
    read_features ⟨0, 7, 1⟩ = scanMaskMethod :=
  (read_features_thresholds ⟨0, 7, 1⟩).1.mpr (by decide)

/-- C4 (code evaluated at the failing input): under ScanMask mode with
datapoints = 1, the source computes step = (stop − start) /
(datapoints − 1.0) without any special case, so Python raises
ZeroDivisionError instead of returning [start]. -/
theorem readFrequencies_one_datapoint_zero_division :
    readFrequencies scanMaskMethod 1000 2000 1 =
      some (Except.error PyExn.zeroDivisionError) := rfl

/-- C5 counterexample: with previous cache [("a b","c d")] and the single
malformed response line "1 2 3", `readValues "data 0"` raises, but the
cache after the call is [] — the source cleared it before parsing — not
the untouched previous cache the claim requires. -/
theorem readValues_malformed_clears_cache :
    readValues scanMaskMethod dataCh0 ["1 2 3"] [("a b", "c d")] =
      some (Except.error PyExn.indexError,
        ([] : List (String × String)), true) ∧
    ([] : List (String × String)) ≠ [("a b", "c d")] :=
  ⟨rfl, by decide⟩

/-- C5 amended: under ScanMask mode, a response line with fewer than four
tokens makes `readValues "data 0"` raise an IndexError (the spec's
ProtocolError), but the cache is first cleared and then holds the pairs of
the lines preceding the malformed one — it is not left untouched; lines
with more than four tokens raise nothing (only the first four tokens are
used), so when every line has at least four tokens the call succeeds. -/
theorem readValues_malformed_amended (lines : List String)
    (cache : List (String × String)) :
    ((∃ l ∈ lines, (pysplit l).length < 4) →
      readValues scanMaskMethod dataCh0 lines cache =
        some (Except.error PyExn.indexError,
          (lines.takeWhile lineOk).filterMap parseLine, true)) ∧
    ((∀ l ∈ lines, 4 ≤ (pysplit l).length) →
      readValues scanMaskMethod dataCh0 lines cache =
        some (Except.ok (some ((lines.filterMap parseLine).map Prod.fst)),
          lines.filterMap parseLine, true)) := by
  constructor
  · intro hbad
    have hb : ∃ l ∈ lines, parseLine l = none := by
      obtain ⟨l, hl, hn⟩ := hbad
      exact ⟨l, hl, (parseLine_eq_none_iff l).mpr hn⟩
    simp [readValues, data0Loop_bad lines [] hb]
  · intro hgood
    have hg : ∀ l ∈ lines, (parseLine l).isSome := by
      intro l hl
      rcases ho : parseLine l with _ | p
      · have h4 := (parseLine_eq_none_iff l).mp ho
        have := hgood l hl
        omega
      · simp
    simp [readValues, data0Loop_ok lines [] hg]

/-- Witness for the amended C5 at the malformed line "5 6 7". -/
theorem readValues_malformed_amended_witness :
    readValues scanMaskMethod dataCh0 ["5 6 7"] [] =
      some (Except.error PyExn.indexError,
        ((["5 6 7"].takeWhile lineOk).filterMap parseLine), true) :=
  (readValues_malformed_amended ["5 6 7"] []).1 ⟨"5 6 7", by simp, by decide⟩

/-- C6: under ScanMask mode, `readValues "data 1"` right after a
successful `readValues "data 0"` returns a list of the same length as the
channel-0 result, whose i-th element is the second member of the i-th
cached pair, while the i-th channel-0 element is the first member. -/
theorem readValues_data1_follows_data0
    (lines lines' : List String) (cache cache' : List (String × String))
    (r0 : List String)
    (h : readValues scanMaskMethod dataCh0 lines cache =
      some (Except.ok (some r0), cache', true)) :
    readValues scanMaskMethod dataCh1 lines' cache' =
      some (Except.ok (some (cache'.map Prod.snd)), cache', false) ∧
    (cache'.map Prod.snd).length = r0.length ∧
    (∀ i : ℕ, ∀ hi : i < cache'.length,
      (cache'.map Prod.snd)[i]? = some ((cache'.get ⟨i, hi⟩).2) ∧
      r0[i]? = some ((cache'.get ⟨i, hi⟩).1)) := by
  simp only [readValues, ne_eq, not_true_eq_false, if_false, if_pos rfl,
    ite_false, ite_true] at h
  rcases hd : data0Loop lines [] with ⟨L, e⟩
  rw [hd] at h
  cases e with
  | true => simp at h
  | false =>
    simp only [Bool.false_eq_true, if_false, if_neg, Option.some.injEq,
      Prod.mk.injEq] at h
    obtain ⟨hr0, hL, -⟩ := h
    simp only [Except.ok.injEq, Option.some.injEq] at hr0
    subst hL
    subst hr0
    refine ⟨rfl, by simp, ?_⟩
    intro i hi
    have hi2 : i < L.length := hi
    constructor
    · simp [List.getElem?_map, List.getElem?_eq_getElem hi2,
        List.get_eq_getElem]
    · simp [List.getElem?_map, List.getElem?_eq_getElem hi2,
        List.get_eq_getElem]

/-- Witness for C6 after a concrete successful "data 0" on the line
"1 2 3 4". -/
theorem readValues_data1_follows_data0_witness :
    readValues scanMaskMethod dataCh1 [] [("1 2", "3 4")] =
      some (Except.ok
        (some (([("1 2", "3 4")] : List (String × String)).map Prod.snd)),
        [("1 2", "3 4")], false) ∧
    ((([("1 2", "3 4")] : List (String × String))).map Prod.snd).length =
      (["1 2"] : List String).length ∧
    (∀ i : ℕ, ∀ hi : i < ([("1 2", "3 4")] :
        List (String × String)).length,
      (([("1 2", "3 4")] : List (String × String)).map Prod.snd)[i]? =
        some ((([("1 2", "3 4")] : List (String × String)).get
          ⟨i, hi⟩).2) ∧
      (["1 2"] : List String)[i]? =
        some ((([("1 2", "3 4")] : List (String × String)).get
          ⟨i, hi⟩).1)) :=
  readValues_data1_follows_data0 ["1 2 3 4"] [] [] [("1 2", "3 4")]
    ["1 2"] rfl

/-- C7: under ScanMask mode, `readValues "data 1"` with no preceding
"data 0" issues no device command, raises nothing, leaves the cache
unchanged, and returns the second members of whatever pairs are cached
(possibly stale or empty). -/
theorem readValues_data1_stale (lines : List String)
    (cache : List (String × String)) :
    readValues scanMaskMethod dataCh1 lines cache =
      some (Except.ok (some (cache.map Prod.snd)), cache, false) := rfl

/-- C8 counterexample: a timed-out read hands a short (empty) payload to
`struct.unpack`, whose struct.error is not a `serial.SerialException`, so
`getScreenshot` propagates it instead of returning the blank pixmap the
claim requires. -/
theorem getScreenshot_timeout_propagates :
    getScreenshot true 1 (ReadOutcome.data []) =
      (Except.error PyExn.structError, 1) ∧
    (Except.error PyExn.structError : Except PyExn (List ℕ)) ≠
      Except.ok blankPixmap :=
  ⟨rfl, by decide⟩

/-- C8 amended: when the underlying read raises a serial exception,
`getScreenshot` catches it and returns a blank frame while `_capture_data`
propagates it to its caller; but when the read times out and returns a
short payload, the struct decoding error propagates uncaught through
`getScreenshot` as well. -/
theorem getScreenshot_error_paths (t0 : ℕ) (bytes : List ℕ) :
    getScreenshot true t0 ReadOutcome.serialExn =
      (Except.ok blankPixmap, 4) ∧
    (captureData t0 ReadOutcome.serialExn).1 =
      Except.error PyExn.serialException ∧
    (bytes.length ≠ screenwidth * screenheight * 2 →
      (getScreenshot true t0 (ReadOutcome.data bytes)).1 =
        Except.error PyExn.structError) := by
  refine ⟨rfl, rfl, ?_⟩
  intro h
  simp [getScreenshot, captureData, h]

/-- Witness for the amended C8 at a one-byte (short) payload. -/
theorem getScreenshot_error_paths_witness :
    (getScreenshot true 7 (ReadOutcome.data [0])).1 =
      Except.error PyExn.structError :=
  (getScreenshot_error_paths 7 [0]).2.2 (by decide)

/-- C9 counterexample: starting from original timeout 1, a read that
raises leaves the serial timeout at the widened value 4 — the restoring
assignments after the read never run (there is no try/finally). -/
theorem captureData_timeout_leaks :
    (captureData 1 ReadOutcome.serialExn).2 = 4 ∧ (4 : ℕ) ≠ 1 :=
  ⟨rfl, by decide⟩

/-- C9 amended: the original timeout is restored on every exit path on
which the bulk read returns (success, and short-read timeout followed by
the struct.error), but when the read itself raises, the widened 4-second
timeout persists past the capture call. -/
theorem captureData_timeout_paths (t0 : ℕ) (bytes : List ℕ) :
    (captureData t0 (ReadOutcome.data bytes)).2 = t0 ∧
    (captureData t0 ReadOutcome.serialExn).2 = 4 := by
  refine ⟨?_, rfl⟩
  by_cases h : bytes.length = screenwidth * screenheight * 2 <;>
    simp [captureData, h]

/-- C10: under ScanMask mode, `readValues` with a selector other than
"data 0" and "data 1" issues no device command, leaves the cache
unchanged, raises nothing, and returns Python's None instead of a list. -/
theorem readValues_other_selector (value : String) (lines : List String)
    (cache : List (String × String)) (h0 : value ≠ dataCh0)
    (h1 : value ≠ dataCh1) :
    readValues scanMaskMethod value lines cache =
      some (Except.ok none, cache, false) := by
  simp [readValues, h0, h1]

/-- Witness for C10 at the selector "data 2". -/
theorem readValues_other_selector_witness :
    readValues scanMaskMethod ("data 2") [] [] =
      some (Except.ok none, [], false) :=
  readValues_other_selector ("data 2") [] [] (by decide) (by decide)

end NanoVNA
